import Mathlib

/-!
Verification development for the Mars multimodal-sampler rotorcraft sizing model.

The definitions below are a shallow embedding of `src/rotorcraft.py`,
`src/mission_design.py` and `src/mars_constants.py`.  Python floats are
modelled as real numbers; Python `None` sentinels as `Option`; the
`ValueError` feasibility exceptions and the `TypeError` produced by
comparing `None` against a float as an `Except` error type.  Names follow
the source.
-/

noncomputable section

namespace mars_constants

/-- Mirrors `mars_constants.GRAVITY`. -/
def GRAVITY : ℝ := 3.71

/-- Mirrors `mars_constants.SPEED_OF_SOUND`. -/
def SPEED_OF_SOUND : ℝ := 233.1

/-- Mirrors `mars_constants.DENSITY`. -/
def DENSITY : ℝ := 0.015

/-- Mirrors `mars_constants.SOL_SECONDS`. -/
def SOL_SECONDS : ℝ := 24 * 60 * 60 + 39 * 60 + 35.244

/-- Mirrors `mars_constants.DAYLIGHT_SECONDS`. -/
def DAYLIGHT_SECONDS : ℝ := 12.5 * 60 * 60

end mars_constants

/-- Mirrors the `FlightMissionScenario` constructor parameters. -/
structure MissionScenario where
  HOVER_TIME : ℝ
  FORWARD_FLIGHT_SPEED : ℝ
  FORWARD_FLIGHT_DISTANCE : ℝ
  CLIMB_HEIGHT : ℝ
  CLIMB_RATE : ℝ
  DESCENT_RATE : ℝ

/-- Mirrors `FlightMissionScenario.get_single_flight_energy`.  The Python
defaults `climb_power_factor=1.5, descent_power_factor=1.5` are passed
explicitly by the caller in this model. -/
def get_single_flight_energy (s : MissionScenario)
    (hover_power f_flight_power avionics_power
     climb_power_factor descent_power_factor : ℝ) : ℝ :=
  let climb_time := s.CLIMB_HEIGHT / s.CLIMB_RATE
  let climb_power := hover_power * climb_power_factor
  let climb_energy := climb_power * climb_time
  let f_flight_time := s.FORWARD_FLIGHT_DISTANCE / s.FORWARD_FLIGHT_SPEED
  let f_flight_energy := f_flight_power * f_flight_time
  let hover_energy := hover_power * s.HOVER_TIME
  let descent_time := s.CLIMB_HEIGHT / s.DESCENT_RATE
  let descent_power := descent_power_factor * hover_power
  let descent_energy := descent_power * descent_time
  let total_time := climb_time + f_flight_time + s.HOVER_TIME + descent_time
  let avionics_energy := avionics_power * total_time
  climb_energy + hover_energy + f_flight_energy + descent_energy + avionics_energy

/-- Mirrors the `DesignConstraints` instance attributes (constructor
parameters `mass_limit`, `max_diameter`). -/
structure DesignConstraints where
  MASS_LIMIT : ℝ
  MAX_DIAMETER : ℝ

namespace DesignConstraints

/-- Mirrors the class attribute `DesignConstraints.CONTINGENCY_WEIGHT_FACTOR`. -/
def CONTINGENCY_WEIGHT_FACTOR : ℝ := 0.2

/-- Mirrors the class attribute `DesignConstraints.HOVER_THRUST_CONDITION`. -/
def HOVER_THRUST_CONDITION : ℝ := 1.5

/-- Mirrors the class attribute `DesignConstraints.MACH_TIP_LIMIT`. -/
def MACH_TIP_LIMIT : ℝ := 0.8

/-- Mirrors the class attribute `DesignConstraints.MACH_ADVANCING_TIP_LIMIT`. -/
def MACH_ADVANCING_TIP_LIMIT : ℝ := 0.95

/-- Mirrors the property `DesignConstraints.TIP_SPEED_LIMIT`. -/
def TIP_SPEED_LIMIT : ℝ := mars_constants.SPEED_OF_SOUND * MACH_TIP_LIMIT

/-- Mirrors the property `DesignConstraints.ADVANCING_TIP_SPEED_LIMIT`. -/
def ADVANCING_TIP_SPEED_LIMIT : ℝ :=
  mars_constants.SPEED_OF_SOUND * MACH_ADVANCING_TIP_LIMIT

end DesignConstraints

namespace DesignAssumptions

/-- Mirrors `DesignAssumptions.BLADE_LOADING`. -/
def BLADE_LOADING : ℝ := 0.175

/-- Mirrors `DesignAssumptions.DRAG_COEF_MEAN`. -/
def DRAG_COEF_MEAN : ℝ := 1.02 / 28.25

/-- Mirrors `DesignAssumptions.FORWARD_FLIGHT_TILT_ANGLE` (degrees). -/
def FORWARD_FLIGHT_TILT_ANGLE : ℝ := 15

/-- Mirrors `DesignAssumptions.MOTOR_EFFICIENCY`. -/
def MOTOR_EFFICIENCY : ℝ := 0.8

/-- Mirrors `DesignAssumptions.AVIONICS_POWER`. -/
def AVIONICS_POWER : ℝ := 35

/-- Mirrors `DesignAssumptions.SAMPLING_MECHANISM_POWER`. -/
def SAMPLING_MECHANISM_POWER : ℝ := 15

/-- Mirrors `DesignAssumptions.SAMPLING_TIME`. -/
def SAMPLING_TIME : ℝ := 15 * 60

/-- Mirrors `DesignAssumptions.GROUND_MOBILITY_POWER`. -/
def GROUND_MOBILITY_POWER : ℝ := 100

/-- Mirrors `DesignAssumptions.GROUND_MOBILITY_TIME`. -/
def GROUND_MOBILITY_TIME : ℝ := 5 * 60

/-- Mirrors `DesignAssumptions.GROUND_MOBILITY_MASS_PROPORTION`. -/
def GROUND_MOBILITY_MASS_PROPORTION : ℝ := 0.05

/-- Mirrors `DesignAssumptions.SOLAR_PANEL_ENERGY_PER_SOL`. -/
def SOLAR_PANEL_ENERGY_PER_SOL : ℝ := 540 * 60 * 60

/-- Mirrors `DesignAssumptions.SOLAR_PANEL_MASS_DENSITY`. -/
def SOLAR_PANEL_MASS_DENSITY : ℝ := 2.0

/-- Mirrors `DesignAssumptions.BATTERY_CONTINGENCY`. -/
def BATTERY_CONTINGENCY : ℝ := 1.2

/-- Mirrors `DesignAssumptions.USABLE_BATTERY_PERC`. -/
def USABLE_BATTERY_PERC : ℝ := 0.7

/-- Mirrors `DesignAssumptions.BATTERY_DENSITY` (Wh/kg). -/
def BATTERY_DENSITY : ℝ := 218.5

/-- Mirrors `DesignAssumptions.ELECTRONICS_MASS`. -/
def ELECTRONICS_MASS : ℝ := 2.65

/-- Mirrors `DesignAssumptions.ROTOR_MASS_FACTOR`. -/
def ROTOR_MASS_FACTOR : ℝ := 1

/-- Mirrors `DesignAssumptions.MOTOR_MASS_FACTOR`. -/
def MOTOR_MASS_FACTOR : ℝ := 1

end DesignAssumptions

/-- The three concrete subclasses of `Rotorcraft` in the source:
`ConventionalRotorcraft`, `CoaxialRotorcraft`, `TiltRotorcraft`. -/
inductive CraftKind
  | conventional
  | coaxial
  | tiltRotor
deriving DecidableEq

/-- The three `ValueError` conditions raised by
`calc_and_verify_initial_design`, distinguishable by their message. -/
inductive FeasKind
  | geometric
  | kinematic
  | negativePayload
deriving DecidableEq

/-- Failure modes of an evaluation: a `ValueError` feasibility failure, or
the `TypeError` produced when `total_diameter` returns `None` and is
compared against a float. -/
inductive Fault
  | feas (k : FeasKind)
  | typeFault
deriving DecidableEq

/-- Identity of a sizing-model instance: configuration kind, rotor count,
non-tilting rotor count (meaningful only for the tilt rotor), blade count,
and the mission scenario / design constraints it was constructed with.
The `DesignAssumptions` are all class attributes and appear as the
constants above. -/
structure Rotorcraft where
  kind : CraftKind
  no_rotors : ℕ
  no_nontilt_rotors : ℕ
  no_blades : ℕ
  mission_scenario : MissionScenario
  design_constraints : DesignConstraints

/-- Mirrors `self._no_nonoverlapping_rotors`: equal to `no_rotors` in the
base class, overwritten to `no_rotors / 2` (float division) in
`CoaxialRotorcraft.__init__`.  Modelled in ℚ so that the float equality
tests of `total_diameter` are exact. -/
def no_nonoverlapping_rotors (c : Rotorcraft) : ℚ :=
  match c.kind with
  | CraftKind.coaxial => (c.no_rotors : ℚ) / 2
  | _ => (c.no_rotors : ℚ)

/-- The group counts for which `total_diameter` has a branch. -/
def valid_rotor_grouping (c : Rotorcraft) : Prop :=
  no_nonoverlapping_rotors c = 1 ∨ no_nonoverlapping_rotors c = 4 ∨
  no_nonoverlapping_rotors c = 6 ∨ no_nonoverlapping_rotors c = 8

/-- Mirrors the property `TiltRotorcraft.tiltrotor_multiplier`. -/
def tiltrotor_multiplier (c : Rotorcraft) : ℝ :=
  (c.no_rotors : ℝ) / (c.no_nontilt_rotors : ℝ)

/-- Mirrors `Rotorcraft.calc_max_thrust`, with the `TiltRotorcraft`
override multiplying by `tiltrotor_multiplier`. -/
def calc_max_thrust (c : Rotorcraft) (design_mass : ℝ) : ℝ :=
  match c.kind with
  | CraftKind.tiltRotor =>
      DesignConstraints.HOVER_THRUST_CONDITION * design_mass *
        mars_constants.GRAVITY * tiltrotor_multiplier c
  | _ =>
      DesignConstraints.HOVER_THRUST_CONDITION * design_mass *
        mars_constants.GRAVITY

/-- Mirrors the property `Rotorcraft.max_thrust_per_rotor`. -/
def max_thrust_per_rotor (c : Rotorcraft) (design_mass : ℝ) : ℝ :=
  calc_max_thrust c design_mass / (c.no_rotors : ℝ)

/-- Mirrors the property `Rotorcraft.hover_thrust_per_rotor`. -/
def hover_thrust_per_rotor (c : Rotorcraft) (design_mass : ℝ) : ℝ :=
  max_thrust_per_rotor c design_mass / DesignConstraints.HOVER_THRUST_CONDITION

/-- Mirrors `Rotorcraft.calc_rotor_area`. -/
def calc_rotor_area (thrust_per_rotor : ℝ) : ℝ :=
  thrust_per_rotor /
    (mars_constants.DENSITY * DesignAssumptions.BLADE_LOADING *
      DesignConstraints.TIP_SPEED_LIMIT ^ 2)

/-- Mirrors `Rotorcraft.calc_rotor_radius`. -/
def calc_rotor_radius (c : Rotorcraft) (thrust_per_rotor : ℝ) : ℝ :=
  2.8978 * Real.sqrt (calc_rotor_area thrust_per_rotor / (c.no_blades : ℝ))

/-- The rotor radius stored as `self._rotor_radius` during
`calc_and_verify_initial_design`. -/
def rotor_radius (c : Rotorcraft) (design_mass : ℝ) : ℝ :=
  calc_rotor_radius c (max_thrust_per_rotor c design_mass)

/-- Mirrors the property `Rotorcraft.rotor_area` (single-rotor blade
area regression from the stored radius). -/
def rotor_area (c : Rotorcraft) (design_mass : ℝ) : ℝ :=
  0.119087 * rotor_radius c design_mass ^ 2 * (c.no_blades : ℝ)

/-- Mirrors the property `Rotorcraft.disk_area`. -/
def disk_area (r : ℝ) : ℝ := r ^ 2 * Real.pi

/-- Mirrors `Rotorcraft.calc_tip_speed`. -/
def calc_tip_speed (thrust_per_rotor blade_area : ℝ) : ℝ :=
  Real.sqrt (thrust_per_rotor /
    (mars_constants.DENSITY * DesignAssumptions.BLADE_LOADING * blade_area))

/-- Mirrors the per-kind property `rotor_servo_power_proportion`
(0 for conventional and tilt rotor, 0.15 for coaxial). -/
def rotor_servo_power_proportion (c : Rotorcraft) : ℝ :=
  match c.kind with
  | CraftKind.coaxial => 0.15
  | _ => 0

/-- Mirrors the property `Rotorcraft.propulsive_efficiency`. -/
def propulsive_efficiency (c : Rotorcraft) : ℝ :=
  DesignAssumptions.MOTOR_EFFICIENCY * (1 - rotor_servo_power_proportion c)

/-- Mirrors the per-kind property `induced_power_factor_hover`
(1.1 for coaxial, 1.2 for conventional and the inheriting tilt rotor). -/
def induced_power_factor_hover (c : Rotorcraft) : ℝ :=
  match c.kind with
  | CraftKind.coaxial => 1.1
  | _ => 1.2

/-- Mirrors the per-kind property `induced_power_factor_forward`
(1.6 for coaxial, 2.0 for conventional and the inheriting tilt rotor). -/
def induced_power_factor_forward (c : Rotorcraft) : ℝ :=
  match c.kind with
  | CraftKind.coaxial => 1.6
  | _ => 2.0

/-- Mirrors `Rotorcraft.calc_thrust_power`; `r` is the stored
`self._rotor_radius` read through `self.disk_area`, and `n` the rotor
count the per-rotor power is scaled by. -/
def calc_thrust_power (c : Rotorcraft) (r : ℝ)
    (thrust_per_rotor blade_area induced_power_factor tip_speed n : ℝ) : ℝ :=
  let induced_power := induced_power_factor * thrust_per_rotor *
    Real.sqrt (thrust_per_rotor / (2 * mars_constants.DENSITY * disk_area r))
  let profile_power := mars_constants.DENSITY * blade_area * tip_speed ^ 3 *
    DesignAssumptions.DRAG_COEF_MEAN / 8
  (induced_power + profile_power) * n / propulsive_efficiency c

/-- Mirrors `Rotorcraft.calc_max_thrust_power` (hover induced-power
factor at the Mach-limited tip speed). -/
def calc_max_thrust_power (c : Rotorcraft) (r : ℝ)
    (max_thrust_per_rotor blade_area : ℝ) : ℝ :=
  calc_thrust_power c r max_thrust_per_rotor blade_area
    (induced_power_factor_hover c) DesignConstraints.TIP_SPEED_LIMIT
    (c.no_rotors : ℝ)

/-- The value stored as `self._max_thrust_power`, from the call
`self.calc_max_thrust_power(self.hover_thrust_per_rotor, self.rotor_area)`. -/
def max_thrust_power (c : Rotorcraft) (design_mass : ℝ) : ℝ :=
  calc_max_thrust_power c (rotor_radius c design_mass)
    (hover_thrust_per_rotor c design_mass) (rotor_area c design_mass)

/-- Mirrors `Rotorcraft.calc_torque`. -/
def calc_torque (thrust_power r : ℝ) : ℝ :=
  thrust_power / (DesignConstraints.TIP_SPEED_LIMIT / r)

/-- The value stored as `self._torque`. -/
def torque (c : Rotorcraft) (design_mass : ℝ) : ℝ :=
  calc_torque (max_thrust_power c design_mass) (rotor_radius c design_mass)

/-- Mirrors the property `Rotorcraft.hover_tip_speed`. -/
def hover_tip_speed (c : Rotorcraft) (design_mass : ℝ) : ℝ :=
  calc_tip_speed (hover_thrust_per_rotor c design_mass) (rotor_area c design_mass)

/-- Mirrors the property `Rotorcraft.hover_power`. -/
def hover_power (c : Rotorcraft) (design_mass : ℝ) : ℝ :=
  calc_thrust_power c (rotor_radius c design_mass)
    (hover_thrust_per_rotor c design_mass) (rotor_area c design_mass)
    (induced_power_factor_hover c) (hover_tip_speed c design_mass)
    (c.no_rotors : ℝ)

/-- Mirrors the property `f_flight_thrust_per_rotor`: whole-disk tilt by
`1/cos(tilt angle)` in the base class, multiplied thrust in the
`TiltRotorcraft` override. -/
def f_flight_thrust_per_rotor (c : Rotorcraft) (design_mass : ℝ) : ℝ :=
  match c.kind with
  | CraftKind.tiltRotor =>
      hover_thrust_per_rotor c design_mass * tiltrotor_multiplier c
  | _ =>
      hover_thrust_per_rotor c design_mass /
        Real.cos (DesignAssumptions.FORWARD_FLIGHT_TILT_ANGLE * Real.pi / 180)

/-- Mirrors the property `Rotorcraft.f_flight_tip_speed`. -/
def f_flight_tip_speed (c : Rotorcraft) (design_mass : ℝ) : ℝ :=
  calc_tip_speed (f_flight_thrust_per_rotor c design_mass) (rotor_area c design_mass)

/-- Mirrors the property `Rotorcraft.max_forward_velocity`. -/
def max_forward_velocity (c : Rotorcraft) (design_mass : ℝ) : ℝ :=
  DesignConstraints.ADVANCING_TIP_SPEED_LIMIT - f_flight_tip_speed c design_mass

/-- Mirrors the property `f_flight_power`, including the
`TiltRotorcraft` override that sums the non-tilting and tilted rotor
contributions. -/
def f_flight_power (c : Rotorcraft) (design_mass : ℝ) : ℝ :=
  match c.kind with
  | CraftKind.tiltRotor =>
      calc_thrust_power c (rotor_radius c design_mass)
        (f_flight_thrust_per_rotor c design_mass) (rotor_area c design_mass)
        (induced_power_factor_forward c) DesignConstraints.ADVANCING_TIP_SPEED_LIMIT
        (c.no_nontilt_rotors : ℝ) +
      calc_thrust_power c (rotor_radius c design_mass)
        (hover_thrust_per_rotor c design_mass) (rotor_area c design_mass)
        (induced_power_factor_hover c) (hover_tip_speed c design_mass)
        ((c.no_rotors : ℝ) - (c.no_nontilt_rotors : ℝ))
  | _ =>
      calc_thrust_power c (rotor_radius c design_mass)
        (f_flight_thrust_per_rotor c design_mass) (rotor_area c design_mass)
        (induced_power_factor_forward c) DesignConstraints.ADVANCING_TIP_SPEED_LIMIT
        (c.no_rotors : ℝ)

/-- Mirrors `Rotorcraft.calc_energy_per_sol` (the stored
`self._design_mass` is the `design_mass` argument). -/
def calc_energy_per_sol (c : Rotorcraft) (design_mass : ℝ) : ℝ :=
  let flight_energy := get_single_flight_energy c.mission_scenario
    (hover_power c design_mass) (f_flight_power c design_mass)
    DesignAssumptions.AVIONICS_POWER 1.5 1.5
  let ground_mobility_energy :=
    DesignAssumptions.GROUND_MOBILITY_POWER * DesignAssumptions.GROUND_MOBILITY_TIME
  let sampling_mechanism_energy :=
    DesignAssumptions.SAMPLING_MECHANISM_POWER * DesignAssumptions.SAMPLING_TIME
  let sleep_energy :=
    0.518 * design_mass ^ ((1 : ℝ) / 3) * mars_constants.SOL_SECONDS
  let mission_energy := flight_energy + ground_mobility_energy +
    sampling_mechanism_energy + sleep_energy
  DesignAssumptions.BATTERY_CONTINGENCY * mission_energy

/-- The battery-mass-from-energy computation inside
`Rotorcraft.calc_empty_mass`: required energy over the usable battery
fraction, converted to Wh, divided by the battery specific energy. -/
def battery_mass_from_energy (energy : ℝ) : ℝ :=
  energy / DesignAssumptions.USABLE_BATTERY_PERC / (60 * 60) /
    DesignAssumptions.BATTERY_DENSITY

/-- Mirrors `Rotorcraft.calc_empty_mass` line by line. -/
def calc_empty_mass (c : Rotorcraft) (design_mass r torque energy : ℝ) : ℝ :=
  let motor_mass :=
    DesignAssumptions.MOTOR_MASS_FACTOR * 0.076 * torque ^ ((0.86 : ℝ))
  let energy_required := energy / DesignAssumptions.USABLE_BATTERY_PERC
  let energy_required_Wh := energy_required / (60 * 60)
  let battery_mass := energy_required_Wh / DesignAssumptions.BATTERY_DENSITY
  let solar_panel_area := energy_required / DesignAssumptions.SOLAR_PANEL_ENERGY_PER_SOL
  let solar_panel_mass := solar_panel_area * DesignAssumptions.SOLAR_PANEL_MASS_DENSITY
  let rotor_mass := (0.168 / 0.72) * r * (c.no_blades : ℝ) * (c.no_rotors : ℝ)
  let structure_mass :=
    1 / 3 * design_mass - (1 / DesignAssumptions.ROTOR_MASS_FACTOR) * rotor_mass
  let ground_mobility_mass :=
    DesignAssumptions.GROUND_MOBILITY_MASS_PROPORTION * design_mass
  let flight_electronics_mass := DesignAssumptions.ELECTRONICS_MASS
  motor_mass + solar_panel_mass + battery_mass + rotor_mass + structure_mass +
    ground_mobility_mass + flight_electronics_mass

/-- Mirrors `Rotorcraft.calc_energy_from_battery_mass`. -/
def calc_energy_from_battery_mass (battery_mass : ℝ) : ℝ :=
  battery_mass * DesignAssumptions.BATTERY_DENSITY * 60 * 60 *
    DesignAssumptions.USABLE_BATTERY_PERC / DesignAssumptions.BATTERY_CONTINGENCY

/-- Mirrors `Rotorcraft.calc_payload`. -/
def calc_payload (available_mass empty_mass : ℝ) : ℝ :=
  available_mass - empty_mass

/-- Mirrors the property `Rotorcraft.total_available_mass`. -/
def total_available_mass (c : Rotorcraft) (design_mass : ℝ) : ℝ :=
  design_mass * (1 - DesignConstraints.CONTINGENCY_WEIGHT_FACTOR)

/-- Mirrors the property `Rotorcraft.total_diameter`: a branch for group
counts 1, 4, 6 and 8, with the implicit Python `None` fall-through for
every other count. -/
def total_diameter (c : Rotorcraft) (r : ℝ) : Option ℝ :=
  if no_nonoverlapping_rotors c = 1 then some (2 * r)
  else if no_nonoverlapping_rotors c = 4 then some ((1 + Real.sqrt 2) * 2 * r)
  else if no_nonoverlapping_rotors c = 6 then some (3 * r * 2)
  else if no_nonoverlapping_rotors c = 8 then some (17 / 5 * r * 2)
  else none

/-- The overall diameter against which the geometric check compares,
when it is defined. -/
def overall_diameter (c : Rotorcraft) (design_mass : ℝ) : ℝ :=
  (total_diameter c (rotor_radius c design_mass)).getD 0

/-- The payload returned by a successful evaluation at the (resolved)
design mass. -/
def design_payload (c : Rotorcraft) (design_mass : ℝ) : ℝ :=
  calc_payload (total_available_mass c design_mass)
    (calc_empty_mass c design_mass (rotor_radius c design_mass)
      (torque c design_mass) (calc_energy_per_sol c design_mass))

/-- Mirrors `self._design_mass = self.dc.MASS_LIMIT if not design_mass
else design_mass`: Python falsiness sends both `None` and `0.0` to the
mass limit. -/
def resolve_design_mass (c : Rotorcraft) (design_mass : Option ℝ) : ℝ :=
  match design_mass with
  | none => c.design_constraints.MASS_LIMIT
  | some x => if x = 0 then c.design_constraints.MASS_LIMIT else x

/-- Mirrors `Rotorcraft.calc_and_verify_initial_design`.  The three
`raise ValueError` sites become the three feasibility faults; comparing
the `None` returned by `total_diameter` against the max diameter raises
a `TypeError`, modelled as `Fault.typeFault`. -/
def calc_and_verify_initial_design (c : Rotorcraft) (design_mass : Option ℝ) :
    Except Fault ℝ :=
  let m := resolve_design_mass c design_mass
  match total_diameter c (rotor_radius c m) with
  | none => Except.error Fault.typeFault
  | some d =>
      if d > c.design_constraints.MAX_DIAMETER then
        Except.error (Fault.feas FeasKind.geometric)
      else if max_forward_velocity c m < c.mission_scenario.FORWARD_FLIGHT_SPEED then
        Except.error (Fault.feas FeasKind.kinematic)
      else if design_payload c m < 0 then
        Except.error (Fault.feas FeasKind.negativePayload)
      else
        Except.ok (design_payload c m)

/-- Whether an evaluation result is a success. -/
def is_success (e : Except Fault ℝ) : Bool :=
  match e with
  | Except.ok _ => true
  | Except.error _ => false

/-- The payload of a successful evaluation at a design mass (0 when
the evaluation fails; used only to state results about success points). -/
def evaluate_payload (c : Rotorcraft) (m : ℝ) : ℝ :=
  match calc_and_verify_initial_design c (some m) with
  | Except.ok p => p
  | Except.error _ => 0

/-- The `for`/`try`/`except ValueError` loop of
`payload_efficiency_analysis`: collects payloads and valid design
masses, skips `ValueError` points, and propagates a `TypeError`. -/
def sweep_collect (c : Rotorcraft) : List ℝ → Except Fault (List ℝ × List ℝ)
  | [] => Except.ok ([], [])
  | m :: rest =>
      match calc_and_verify_initial_design c (some m) with
      | Except.ok p =>
          match sweep_collect c rest with
          | Except.ok (ps, vs) => Except.ok (p :: ps, m :: vs)
          | Except.error e => Except.error e
      | Except.error (Fault.feas _) => sweep_collect c rest
      | Except.error Fault.typeFault => Except.error Fault.typeFault

/-- Mirrors `Rotorcraft.payload_efficiency_analysis` for an explicit
grid of design masses. -/
def payload_efficiency_analysis (c : Rotorcraft) (design_masses : List ℝ) :
    Except Fault (List ℝ × List ℝ) :=
  match sweep_collect c design_masses with
  | Except.ok (payloads, valid_design_masses) =>
      Except.ok (valid_design_masses,
        List.zipWith (fun payload design_mass => payload / design_mass)
          payloads valid_design_masses)
  | Except.error e => Except.error e

/-- The default grid used when `design_masses is None`. -/
def default_design_masses : List ℝ := [10, 15, 20, 25, 30, 35, 40, 45, 50]

/-- Mirrors `Rotorcraft.hover_time_from_energy` (reads the stored state
of the latest evaluation at `design_mass`). -/
def hover_time_from_energy (c : Rotorcraft) (design_mass energy : ℝ) : ℝ :=
  energy / hover_power c design_mass

/-- Mirrors `Rotorcraft.f_flight_distance_from_energy`. -/
def f_flight_distance_from_energy (c : Rotorcraft) (design_mass energy : ℝ) : ℝ :=
  energy / f_flight_power c design_mass * c.mission_scenario.FORWARD_FLIGHT_SPEED

/-- Python `int()` truncation toward zero on a float. -/
def pyInt (x : ℝ) : ℤ :=
  if 0 ≤ x then Int.floor x else Int.ceil x

/-- Python `range(a, b)` over integers. -/
def pyRange (a b : ℤ) : List ℤ :=
  (List.range (b - a).toNat).map (fun (i : ℕ) => a + (i : ℤ))

/-- The battery mass stored as `self._battery_mass` by
`calc_empty_mass` during an evaluation at `design_mass`. -/
def stored_battery_mass (c : Rotorcraft) (design_mass : ℝ) : ℝ :=
  battery_mass_from_energy (calc_energy_per_sol c design_mass)

/-- Mirrors `Rotorcraft.trade_payload_for_battery`: an exception from
the initial evaluation propagates to the caller. -/
def trade_payload_for_battery (c : Rotorcraft) (design_mass min_payload : ℝ) :
    Except Fault (List ℝ × List ℝ × List ℝ) :=
  match calc_and_verify_initial_design c (some design_mass) with
  | Except.error e => Except.error e
  | Except.ok max_payload =>
      let dm := resolve_design_mass c (some design_mass)
      let valid_payloads : List ℝ :=
        ((pyRange (pyInt min_payload) (pyInt max_payload + 1)).map
          (fun (z : ℤ) => (z : ℝ))) ++ [max_payload]
      let battery_masses := valid_payloads.map
        (fun reduced => max_payload - reduced + stored_battery_mass c dm)
      let energies := battery_masses.map calc_energy_from_battery_mass
      let hover_times := energies.map (fun e => hover_time_from_energy c dm e)
      let f_flight_distances :=
        energies.map (fun e => f_flight_distance_from_energy c dm e)
      Except.ok (valid_payloads, hover_times, f_flight_distances)

/-- The component masses of `calc_empty_mass` as standalone state
values of an evaluation, in the order the claim lists them. -/
def motor_mass (c : Rotorcraft) (design_mass : ℝ) : ℝ :=
  DesignAssumptions.MOTOR_MASS_FACTOR * 0.076 * torque c design_mass ^ ((0.86 : ℝ))

/-- The stored `self._solar_panel_mass`. -/
def solar_panel_mass (c : Rotorcraft) (design_mass : ℝ) : ℝ :=
  calc_energy_per_sol c design_mass / DesignAssumptions.USABLE_BATTERY_PERC /
    DesignAssumptions.SOLAR_PANEL_ENERGY_PER_SOL *
    DesignAssumptions.SOLAR_PANEL_MASS_DENSITY

/-- The stored `self._rotor_mass`. -/
def rotor_mass (c : Rotorcraft) (design_mass : ℝ) : ℝ :=
  (0.168 / 0.72) * rotor_radius c design_mass * (c.no_blades : ℝ) * (c.no_rotors : ℝ)

/-- The stored `self._structure_mass`. -/
def structure_mass (c : Rotorcraft) (design_mass : ℝ) : ℝ :=
  1 / 3 * design_mass -
    (1 / DesignAssumptions.ROTOR_MASS_FACTOR) * rotor_mass c design_mass

/-- The stored `self._ground_mobility_mass`. -/
def ground_mobility_mass (c : Rotorcraft) (design_mass : ℝ) : ℝ :=
  DesignAssumptions.GROUND_MOBILITY_MASS_PROPORTION * design_mass

/-- The stored `self._flight_electronics_mass`. -/
def flight_electronics_mass : ℝ := DesignAssumptions.ELECTRONICS_MASS

/-- The role multiplier exactly as the specification words it: 1 for
conventional and coaxial craft, rotor count over non-tilting rotor
count for the tilt rotor. -/
def spec_role_multiplier (c : Rotorcraft) : ℝ :=
  match c.kind with
  | CraftKind.tiltRotor => (c.no_rotors : ℝ) / (c.no_nontilt_rotors : ℝ)
  | _ => 1

/-- A mission scenario with no hover, climb or cruise-distance demand
and a 10 m/s required cruise speed; used for concrete evaluations. -/
def demo_scenario : MissionScenario := ⟨0, 10, 0, 0, 1, 1⟩

/-- Constraints with a generous 100 m aeroshell for the feasible
concrete evaluation. -/
def demo_constraints : DesignConstraints := ⟨50, 100⟩

/-- A conventional four-rotor, one-blade craft over given scenario and
constraints. -/
def conv4 (ms : MissionScenario) (dc : DesignConstraints) : Rotorcraft :=
  ⟨CraftKind.conventional, 4, 0, 1, ms, dc⟩

/-- The concrete feasible configuration used for witnesses. -/
def demo_craft : Rotorcraft := conv4 demo_scenario demo_constraints

/-- A scenario whose required cruise speed is unreachable. -/
def c8_scenario : MissionScenario := ⟨0, 1000000000, 0, 0, 1, 1⟩

/-- Constraints with a 0.01 m aeroshell, so the geometric check fails. -/
def c8_constraints : DesignConstraints := ⟨50, 0.01⟩

/-- A craft that violates both the geometric and the kinematic
conditions at design mass 20. -/
def c8_craft : Rotorcraft := conv4 c8_scenario c8_constraints

/-- A conventional craft with 2 rotors: its non-overlapping group count
2 has no `total_diameter` branch. -/
def twin_rotor_craft : Rotorcraft :=
  ⟨CraftKind.conventional, 2, 0, 2, demo_scenario, demo_constraints⟩

/-- A coaxial craft with 12 rotors: its group count is 12/2 = 6, which
does have a `total_diameter` branch. -/
def coax12_craft : Rotorcraft :=
  ⟨CraftKind.coaxial, 12, 0, 2, demo_scenario, demo_constraints⟩

/-- The max payload of the demo evaluation at design mass 20. -/
def demo_max_payload : ℝ := design_payload demo_craft 20

/-- The payload-level series returned by the trade at design mass 20
with minimum payload 1/2. -/
def c9_levels : List ℝ :=
  match trade_payload_for_battery demo_craft 20 (1 / 2) with
  | Except.ok (ls, _, _) => ls
  | Except.error _ => []

end

section Theorems

open Real

/-- Upper-bound a square root by squaring. -/
theorem sqrt_le_of_le_sq {x c : ℝ} (hc : 0 ≤ c) (h : x ≤ c ^ 2) :
    Real.sqrt x ≤ c :=
  Real.sqrt_le_iff.mpr ⟨hc, h⟩

/-- Lower-bound a square root by squaring. -/
theorem le_sqrt_of_sq_le_ {x c : ℝ} (h : c ^ 2 ≤ x) : c ≤ Real.sqrt x :=
  Real.le_sqrt_of_sq_le h

/-- Membership in the Python integer range. -/
theorem pyRange_mem_iff (a b z : ℤ) : z ∈ pyRange a b ↔ a ≤ z ∧ z < b := by
  unfold pyRange
  constructor
  · intro hz
    obtain ⟨i, hi, hzi⟩ := List.mem_map.mp hz
    have hi2 : i < (b - a).toNat := List.mem_range.mp hi
    omega
  · intro h
    exact List.mem_map.mpr ⟨(z - a).toNat, List.mem_range.mpr (by omega), by omega⟩

/-- When the group count has a diameter branch, `total_diameter` is
defined and equals its `getD` extraction. -/
theorem total_diameter_of_valid {c : Rotorcraft} (h : valid_rotor_grouping c)
    (r : ℝ) : total_diameter c r = some ((total_diameter c r).getD 0) := by
  rcases h with h | h | h | h <;> norm_num [total_diameter, h]

/-- On a configuration with a diameter branch and a nonzero design
mass, the evaluation reduces to the three sequential feasibility
checks. -/
theorem eval_eq_of_valid (c : Rotorcraft) (m : ℝ) (hg : valid_rotor_grouping c)
    (hm : m ≠ 0) :
    calc_and_verify_initial_design c (some m) =
      (if overall_diameter c m > c.design_constraints.MAX_DIAMETER then
        Except.error (Fault.feas FeasKind.geometric)
      else if max_forward_velocity c m < c.mission_scenario.FORWARD_FLIGHT_SPEED then
        Except.error (Fault.feas FeasKind.kinematic)
      else if design_payload c m < 0 then
        Except.error (Fault.feas FeasKind.negativePayload)
      else Except.ok (design_payload c m)) := by
  obtain ⟨d, hd⟩ : ∃ d, total_diameter c (rotor_radius c m) = some d :=
    ⟨_, total_diameter_of_valid hg _⟩
  have hov : overall_diameter c m = d := by
    simp [overall_diameter, hd]
  have hres : resolve_design_mass c (some m) = m := by
    simp [resolve_design_mass, hm]
  unfold calc_and_verify_initial_design
  simp only [hres, hd, hov]

/-- A successful evaluation returns exactly the design payload of the
resolved design mass. -/
theorem eval_ok_payload (c : Rotorcraft) (dm : Option ℝ) (p : ℝ)
    (hp : calc_and_verify_initial_design c dm = Except.ok p) :
    p = design_payload c (resolve_design_mass c dm) := by
  simp only [calc_and_verify_initial_design] at hp
  split at hp
  · exact absurd hp (by simp)
  · split_ifs at hp
    all_goals first
      | exact (Except.ok.inj hp).symm
      | exact absurd hp (by simp)

/-- On a configuration with a diameter branch, every evaluation either
succeeds or fails with one of the feasibility faults. -/
theorem eval_shape {c : Rotorcraft} (hg : valid_rotor_grouping c)
    (dm : Option ℝ) :
    (∃ p, calc_and_verify_initial_design c dm = Except.ok p) ∨
    (∃ k, calc_and_verify_initial_design c dm = Except.error (Fault.feas k)) := by
  obtain ⟨d, hd⟩ : ∃ d,
      total_diameter c (rotor_radius c (resolve_design_mass c dm)) = some d :=
    ⟨_, total_diameter_of_valid hg _⟩
  unfold calc_and_verify_initial_design
  simp only [hd]
  split_ifs
  · exact Or.inr ⟨FeasKind.geometric, rfl⟩
  · exact Or.inr ⟨FeasKind.kinematic, rfl⟩
  · exact Or.inr ⟨FeasKind.negativePayload, rfl⟩
  · exact Or.inl ⟨_, rfl⟩

/-- C1: on a configuration whose group count is 1, 4, 6 or 8 and a
positive design mass, the evaluation fails exactly when the overall
diameter exceeds the max diameter, the max forward velocity is below
the required cruise speed, or the payload is negative; otherwise it
returns the payload.  Failure is an `Except.error`, so no payload value
is returned on failure. -/
theorem c1_evaluate_failure_iff (c : Rotorcraft) (m : ℝ)
    (hg : valid_rotor_grouping c) (hm : 0 < m) :
    ((∃ e, calc_and_verify_initial_design c (some m) = Except.error e) ↔
      (overall_diameter c m > c.design_constraints.MAX_DIAMETER ∨
       max_forward_velocity c m < c.mission_scenario.FORWARD_FLIGHT_SPEED ∨
       design_payload c m < 0)) ∧
    (¬(overall_diameter c m > c.design_constraints.MAX_DIAMETER ∨
       max_forward_velocity c m < c.mission_scenario.FORWARD_FLIGHT_SPEED ∨
       design_payload c m < 0) →
      calc_and_verify_initial_design c (some m) =
        Except.ok (design_payload c m)) := by
  rw [eval_eq_of_valid c m hg (ne_of_gt hm)]
  by_cases h1 : overall_diameter c m > c.design_constraints.MAX_DIAMETER <;>
    by_cases h2 : max_forward_velocity c m <
      c.mission_scenario.FORWARD_FLIGHT_SPEED <;>
    by_cases h3 : design_payload c m < 0 <;>
    simp [h1, h2, h3]

/-- C1 witness: the demo configuration has four rotor groups and mass
20 is positive, so the characterization applies to it. -/
theorem c1_evaluate_failure_iff_witness :
    valid_rotor_grouping demo_craft ∧ (0 : ℝ) < 20 ∧
    (((∃ e, calc_and_verify_initial_design demo_craft (some 20) =
        Except.error e) ↔
      (overall_diameter demo_craft 20 >
        demo_craft.design_constraints.MAX_DIAMETER ∨
       max_forward_velocity demo_craft 20 <
        demo_craft.mission_scenario.FORWARD_FLIGHT_SPEED ∨
       design_payload demo_craft 20 < 0)) ∧
    (¬(overall_diameter demo_craft 20 >
        demo_craft.design_constraints.MAX_DIAMETER ∨
       max_forward_velocity demo_craft 20 <
        demo_craft.mission_scenario.FORWARD_FLIGHT_SPEED ∨
       design_payload demo_craft 20 < 0) →
      calc_and_verify_initial_design demo_craft (some 20) =
        Except.ok (design_payload demo_craft 20))) := by
  have hg : valid_rotor_grouping demo_craft := by
    right; left
    norm_num [no_nonoverlapping_rotors, demo_craft, conv4]
  exact ⟨hg, by norm_num,
    c1_evaluate_failure_iff demo_craft 20 hg (by norm_num)⟩

/-- The empty mass of an evaluation is the sum of the seven component
masses. -/
theorem empty_mass_eq_components (c : Rotorcraft) (m : ℝ) :
    calc_empty_mass c m (rotor_radius c m) (torque c m)
      (calc_energy_per_sol c m) =
      motor_mass c m + stored_battery_mass c m + solar_panel_mass c m +
      rotor_mass c m + structure_mass c m + ground_mobility_mass c m +
      flight_electronics_mass := by
  simp only [calc_empty_mass, motor_mass, stored_battery_mass,
    battery_mass_from_energy, solar_panel_mass, rotor_mass, structure_mass,
    ground_mobility_mass, flight_electronics_mass]
  ring

/-- C2: on every positive design mass on which the evaluation succeeds,
the returned payload is exactly the available mass
(design mass × (1 − contingency fraction)) minus the sum of the motor,
battery, solar-panel, rotor, structure, ground-mobility and
flight-electronics masses. -/
theorem c2_payload_invariant (c : Rotorcraft) (m p : ℝ) (hm : 0 < m)
    (hp : calc_and_verify_initial_design c (some m) = Except.ok p) :
    p = m * (1 - DesignConstraints.CONTINGENCY_WEIGHT_FACTOR) -
      (motor_mass c m + stored_battery_mass c m + solar_panel_mass c m +
       rotor_mass c m + structure_mass c m + ground_mobility_mass c m +
       flight_electronics_mass) := by
  have hres : resolve_design_mass c (some m) = m := by
    simp [resolve_design_mass, ne_of_gt hm]
  have h := eval_ok_payload c (some m) p hp
  rw [hres] at h
  rw [h, design_payload, calc_payload, total_available_mass,
    empty_mass_eq_components]

/-- C6: for every successful evaluation at a positive design mass, the
energy per sol is the battery contingency factor times the sum of the
single-flight energy delegated to the mission scenario, the
ground-mobility energy, the sampling energy, and the sleep energy
0.518 · mass^(1/3) · seconds per sol. -/
theorem c6_energy_per_sol (c : Rotorcraft) (m p : ℝ) (hm : 0 < m)
    (hp : calc_and_verify_initial_design c (some m) = Except.ok p) :
    calc_energy_per_sol c m =
      DesignAssumptions.BATTERY_CONTINGENCY *
        (get_single_flight_energy c.mission_scenario (hover_power c m)
          (f_flight_power c m) DesignAssumptions.AVIONICS_POWER 1.5 1.5 +
         DesignAssumptions.GROUND_MOBILITY_POWER *
           DesignAssumptions.GROUND_MOBILITY_TIME +
         DesignAssumptions.SAMPLING_MECHANISM_POWER *
           DesignAssumptions.SAMPLING_TIME +
         0.518 * m ^ ((1 : ℝ) / 3) * mars_constants.SOL_SECONDS) := by
  simp only [calc_energy_per_sol]

/-- C8 amended: the max forward velocity used by the kinematic check is
the advancing-tip speed limit minus the forward-flight tip speed from
the thrust/solidity relation at the forward-flight thrust per rotor;
and on a configuration with a diameter branch and positive design
mass, the evaluation fails kinematically exactly when the geometric
check passes and that velocity is below the required cruise speed. -/
theorem c8_kinematic_failure (c : Rotorcraft) (m : ℝ)
    (hg : valid_rotor_grouping c) (hm : 0 < m) :
    max_forward_velocity c m =
      DesignConstraints.ADVANCING_TIP_SPEED_LIMIT -
        calc_tip_speed (f_flight_thrust_per_rotor c m) (rotor_area c m) ∧
    (calc_and_verify_initial_design c (some m) =
        Except.error (Fault.feas FeasKind.kinematic) ↔
      (¬ overall_diameter c m > c.design_constraints.MAX_DIAMETER ∧
       max_forward_velocity c m <
         c.mission_scenario.FORWARD_FLIGHT_SPEED)) := by
  refine ⟨rfl, ?_⟩
  rw [eval_eq_of_valid c m hg (ne_of_gt hm)]
  by_cases h1 : overall_diameter c m > c.design_constraints.MAX_DIAMETER <;>
    by_cases h2 : max_forward_velocity c m <
      c.mission_scenario.FORWARD_FLIGHT_SPEED <;>
    by_cases h3 : design_payload c m < 0 <;>
    simp [h1, h2, h3]

/-- C8 amended witness: the characterization applied to the demo
configuration at design mass 20. -/
theorem c8_kinematic_failure_witness :
    valid_rotor_grouping demo_craft ∧ (0 : ℝ) < 20 ∧
    (max_forward_velocity demo_craft 20 =
      DesignConstraints.ADVANCING_TIP_SPEED_LIMIT -
        calc_tip_speed (f_flight_thrust_per_rotor demo_craft 20)
          (rotor_area demo_craft 20) ∧
    (calc_and_verify_initial_design demo_craft (some 20) =
        Except.error (Fault.feas FeasKind.kinematic) ↔
      (¬ overall_diameter demo_craft 20 >
          demo_craft.design_constraints.MAX_DIAMETER ∧
       max_forward_velocity demo_craft 20 <
         demo_craft.mission_scenario.FORWARD_FLIGHT_SPEED))) := by
  have hg : valid_rotor_grouping demo_craft := by
    right; left
    norm_num [no_nonoverlapping_rotors, demo_craft, conv4]
  exact ⟨hg, by norm_num,
    c8_kinematic_failure demo_craft 20 hg (by norm_num)⟩

/-- Zipping the payload list against the mass list it was mapped from
divides pointwise. -/
theorem zipWith_div_map_self (g : ℝ → ℝ) (vs : List ℝ) :
    List.zipWith (fun payload design_mass => payload / design_mass)
      (vs.map g) vs = vs.map (fun m => g m / m) := by
  induction vs with
  | nil => rfl
  | cons v tl ih => simp [ih]

/-- The collection loop of the sweep, on a configuration with a
diameter branch, keeps exactly the successful grid points. -/
theorem sweep_collect_eq {c : Rotorcraft} (hg : valid_rotor_grouping c)
    (masses : List ℝ) :
    sweep_collect c masses =
      Except.ok
        ((masses.filter
          (fun m => is_success (calc_and_verify_initial_design c (some m)))).map
          (evaluate_payload c),
         masses.filter
          (fun m => is_success (calc_and_verify_initial_design c (some m)))) := by
  induction masses with
  | nil => rfl
  | cons m rest ih =>
      rcases eval_shape hg (some m) with ⟨p, hp⟩ | ⟨k, hk⟩
      · have hsucc : is_success (calc_and_verify_initial_design c (some m)) =
            true := by
          simp [is_success, hp]
        have hep : evaluate_payload c m = p := by
          simp [evaluate_payload, hp]
        simp [sweep_collect, hp, ih, List.filter_cons, is_success, hep]
      · have hsucc : is_success (calc_and_verify_initial_design c (some m)) =
            false := by
          simp [is_success, hk]
        simp [sweep_collect, hk, ih, List.filter_cons, is_success]

/-- C4: on a configuration with a diameter branch, the sweep over any
grid of positive design masses returns, in grid order, exactly the
grid points where the evaluation succeeds together with their payload
efficiencies payload/design mass; failed points are omitted from both
series and never abort the remaining sweep. -/
theorem c4_payload_efficiency_sweep (c : Rotorcraft) (masses : List ℝ)
    (hpos : ∀ m ∈ masses, 0 < m) (hg : valid_rotor_grouping c) :
    payload_efficiency_analysis c masses =
      Except.ok
        (masses.filter
          (fun m => is_success (calc_and_verify_initial_design c (some m))),
         (masses.filter
          (fun m => is_success (calc_and_verify_initial_design c (some m)))).map
          (fun m => evaluate_payload c m / m)) := by
  simp only [payload_efficiency_analysis, sweep_collect_eq hg]
  rw [zipWith_div_map_self]

/-- C4 witness: the sweep characterization applied to the demo
configuration on the singleton grid [20]. -/
theorem c4_payload_efficiency_sweep_witness :
    (∀ m ∈ [(20 : ℝ)], 0 < m) ∧ valid_rotor_grouping demo_craft ∧
    payload_efficiency_analysis demo_craft [20] =
      Except.ok
        ([(20 : ℝ)].filter
          (fun m => is_success (calc_and_verify_initial_design demo_craft (some m))),
         ([(20 : ℝ)].filter
          (fun m => is_success (calc_and_verify_initial_design demo_craft (some m)))).map
          (fun m => evaluate_payload demo_craft m / m)) := by
  have hg : valid_rotor_grouping demo_craft := by
    right; left
    norm_num [no_nonoverlapping_rotors, demo_craft, conv4]
  have hpos : ∀ m ∈ [(20 : ℝ)], 0 < m := by
    intro m hm
    simp at hm
    simp [hm]
  exact ⟨hpos, hg,
    c4_payload_efficiency_sweep demo_craft [20] hpos hg⟩

/-- C3 counterexample: pushing one kilogram of battery through
`calc_energy_from_battery_mass` and back through the
battery-mass-from-energy computation of `calc_empty_mass` returns 5/6
of a kilogram, not the original mass — the composition loses exactly
the battery contingency factor 1.2, far beyond floating-point
tolerance. -/
theorem c3_roundtrip_counterexample :
    battery_mass_from_energy (calc_energy_from_battery_mass 1) = 5 / 6 ∧
    (5 / 6 : ℝ) ≠ 1 := by
  constructor
  · unfold battery_mass_from_energy calc_energy_from_battery_mass
    norm_num [DesignAssumptions.BATTERY_DENSITY,
      DesignAssumptions.USABLE_BATTERY_PERC, DesignAssumptions.BATTERY_CONTINGENCY]
  · norm_num

/-- C3 amended: the round trip between battery mass and energy, in
either order, recovers the original value divided by the battery
energy contingency factor (1.2), exactly. -/
theorem c3_roundtrip_amended (bm E : ℝ) :
    battery_mass_from_energy (calc_energy_from_battery_mass bm) =
      bm / DesignAssumptions.BATTERY_CONTINGENCY ∧
    calc_energy_from_battery_mass (battery_mass_from_energy E) =
      E / DesignAssumptions.BATTERY_CONTINGENCY := by
  unfold battery_mass_from_energy calc_energy_from_battery_mass
  norm_num [DesignAssumptions.BATTERY_DENSITY,
    DesignAssumptions.USABLE_BATTERY_PERC, DesignAssumptions.BATTERY_CONTINGENCY]
  constructor <;> ring

/-- C5: for every positive design mass, the computed max thrust is the
hover-thrust multiplier times design mass times Mars gravity times the
role multiplier (1 for conventional and coaxial, rotor count over
non-tilting rotor count for the tilt rotor). -/
theorem c5_max_thrust_formula (c : Rotorcraft) (m : ℝ) (hm : 0 < m) :
    calc_max_thrust c m =
      DesignConstraints.HOVER_THRUST_CONDITION * m * mars_constants.GRAVITY *
        spec_role_multiplier c := by
  obtain ⟨k, nr, nnt, nb, ms, dc⟩ := c
  cases k <;>
    simp [calc_max_thrust, spec_role_multiplier, tiltrotor_multiplier]

/-- C5 witness: the formula evaluated on a tilt rotor with four rotors,
two of them non-tilting, at design mass 5. -/
theorem c5_max_thrust_formula_witness :
    (0 : ℝ) < 5 ∧
    calc_max_thrust (⟨CraftKind.tiltRotor, 4, 2, 2, demo_scenario,
        demo_constraints⟩ : Rotorcraft) 5 =
      DesignConstraints.HOVER_THRUST_CONDITION * 5 * mars_constants.GRAVITY *
        spec_role_multiplier (⟨CraftKind.tiltRotor, 4, 2, 2, demo_scenario,
          demo_constraints⟩ : Rotorcraft) :=
  ⟨by norm_num, c5_max_thrust_formula _ 5 (by norm_num)⟩

/-- C7: a coaxial craft with eight rotors has four non-overlapping
groups of coaxial pairs, and the overall diameter used in the geometric
check is (1 + √2) · 2 · rotor radius. -/
theorem c7_coaxial_eight_diameter (nt nb : ℕ) (ms : MissionScenario)
    (dc : DesignConstraints) (r : ℝ) :
    no_nonoverlapping_rotors ⟨CraftKind.coaxial, 8, nt, nb, ms, dc⟩ = 4 ∧
    total_diameter ⟨CraftKind.coaxial, 8, nt, nb, ms, dc⟩ r =
      some ((1 + Real.sqrt 2) * 2 * r) := by
  constructor
  · norm_num [no_nonoverlapping_rotors]
  · norm_num [total_diameter, no_nonoverlapping_rotors]

/-- The hover tip speed limit evaluates to 186.48 m/s. -/
theorem tip_speed_limit_eq : DesignConstraints.TIP_SPEED_LIMIT = 186.48 := by
  norm_num [DesignConstraints.TIP_SPEED_LIMIT, DesignConstraints.MACH_TIP_LIMIT,
    mars_constants.SPEED_OF_SOUND]

/-- The advancing tip speed limit evaluates to 221.445 m/s. -/
theorem advancing_tip_speed_limit_eq :
    DesignConstraints.ADVANCING_TIP_SPEED_LIMIT = 221.445 := by
  norm_num [DesignConstraints.ADVANCING_TIP_SPEED_LIMIT,
    DesignConstraints.MACH_ADVANCING_TIP_LIMIT, mars_constants.SPEED_OF_SOUND]

/-- Max thrust per rotor of the conventional four-rotor craft at design
mass 20. -/
theorem conv4_thrust_per_rotor (ms : MissionScenario) (dc : DesignConstraints) :
    max_thrust_per_rotor (conv4 ms dc) 20 = 27.825 := by
  norm_num [max_thrust_per_rotor, calc_max_thrust, conv4,
    DesignConstraints.HOVER_THRUST_CONDITION, mars_constants.GRAVITY]

/-- Hover thrust per rotor of the conventional four-rotor craft at
design mass 20. -/
theorem conv4_hover_thrust_per_rotor (ms : MissionScenario)
    (dc : DesignConstraints) :
    hover_thrust_per_rotor (conv4 ms dc) 20 = 18.55 := by
  norm_num [hover_thrust_per_rotor, conv4_thrust_per_rotor,
    DesignConstraints.HOVER_THRUST_CONDITION]

/-- The rotor radius of the conventional four-rotor one-blade craft at
design mass 20, in closed form. -/
theorem conv4_radius_eq (ms : MissionScenario) (dc : DesignConstraints) :
    rotor_radius (conv4 ms dc) 20 =
      2.8978 * Real.sqrt (27.825 / 91.2838248) := by
  have harg : calc_rotor_area (max_thrust_per_rotor (conv4 ms dc) 20) /
      ((conv4 ms dc).no_blades : ℝ) = 27.825 / 91.2838248 := by
    rw [calc_rotor_area, conv4_thrust_per_rotor]
    norm_num [conv4, mars_constants.DENSITY, DesignAssumptions.BLADE_LOADING,
      tip_speed_limit_eq]
  rw [rotor_radius, calc_rotor_radius, harg]

/-- Lower bound for the demo rotor radius. -/
theorem conv4_radius_lb (ms : MissionScenario) (dc : DesignConstraints) :
    1.5995 ≤ rotor_radius (conv4 ms dc) 20 := by
  rw [conv4_radius_eq]
  have h : (0.552 : ℝ) ≤ Real.sqrt (27.825 / 91.2838248) :=
    le_sqrt_of_sq_le_ (by norm_num)
  nlinarith [h]

/-- Upper bound for the demo rotor radius. -/
theorem conv4_radius_ub (ms : MissionScenario) (dc : DesignConstraints) :
    rotor_radius (conv4 ms dc) 20 ≤ 1.6002 := by
  rw [conv4_radius_eq]
  have h : Real.sqrt (27.825 / 91.2838248) ≤ 0.5522 :=
    sqrt_le_of_le_sq (by norm_num) (by norm_num)
  nlinarith [h]

/-- The squared demo rotor radius is an exact rational. -/
theorem conv4_radius_sq (ms : MissionScenario) (dc : DesignConstraints) :
    rotor_radius (conv4 ms dc) 20 ^ 2 =
      8.39724484 * (27.825 / 91.2838248) := by
  rw [conv4_radius_eq, mul_pow, Real.sq_sqrt (by norm_num)]
  norm_num

/-- The demo blade (rotor) area is an exact rational. -/
theorem conv4_area_eq (ms : MissionScenario) (dc : DesignConstraints) :
    rotor_area (conv4 ms dc) 20 =
      0.119087 * (8.39724484 * (27.825 / 91.2838248)) := by
  rw [rotor_area, conv4_radius_sq]
  norm_num [conv4]

/-- The propulsive efficiency of a conventional craft is 0.8. -/
theorem conv4_efficiency (ms : MissionScenario) (dc : DesignConstraints) :
    propulsive_efficiency (conv4 ms dc) = 0.8 := by
  norm_num [propulsive_efficiency, rotor_servo_power_proportion, conv4,
    DesignAssumptions.MOTOR_EFFICIENCY]

/-- Bounds for the demo rotor disk area. -/
theorem conv4_disk_bounds (ms : MissionScenario) (dc : DesignConstraints) :
    8.040 ≤ disk_area (rotor_radius (conv4 ms dc) 20) ∧
    disk_area (rotor_radius (conv4 ms dc) 20) ≤ 8.0417 := by
  have hsq := conv4_radius_sq ms dc
  have hpl : (3.1415 : ℝ) < Real.pi := Real.pi_gt_d4
  have hpu : Real.pi < 3.1416 := Real.pi_lt_d4
  rw [disk_area, hsq]
  constructor <;> nlinarith [hpl, hpu]

/-- The tilt angle used in forward flight has cosine at least 0.96. -/
theorem cos_tilt_angle_lb :
    0.96 ≤ Real.cos (DesignAssumptions.FORWARD_FLIGHT_TILT_ANGLE *
      Real.pi / 180) := by
  have hb := Real.one_sub_sq_div_two_le_cos
    (x := DesignAssumptions.FORWARD_FLIGHT_TILT_ANGLE * Real.pi / 180)
  have hpu : Real.pi < 3.1416 := Real.pi_lt_d4
  have hpl : (0 : ℝ) < Real.pi := Real.pi_pos
  rw [DesignAssumptions.FORWARD_FLIGHT_TILT_ANGLE] at hb ⊢
  nlinarith [hb, hpu, hpl]

/-- Bounds for the square root inside the demo induced-power term. -/
theorem conv4_induced_sqrt_bounds (ms : MissionScenario) (dc : DesignConstraints) :
    8.768 ≤ Real.sqrt (18.55 / (2 * mars_constants.DENSITY *
      disk_area (rotor_radius (conv4 ms dc) 20))) ∧
    Real.sqrt (18.55 / (2 * mars_constants.DENSITY *
      disk_area (rotor_radius (conv4 ms dc) 20))) ≤ 8.7698 := by
  obtain ⟨hdl, hdu⟩ := conv4_disk_bounds ms dc
  have hpos : (0 : ℝ) < 2 * mars_constants.DENSITY *
      disk_area (rotor_radius (conv4 ms dc) 20) := by
    rw [mars_constants.DENSITY]
    nlinarith [hdl]
  constructor
  · refine le_sqrt_of_sq_le_ ?_
    rw [le_div_iff hpos, mars_constants.DENSITY]
    rw [mars_constants.DENSITY] at hpos
    nlinarith [hdu]
  · refine sqrt_le_of_le_sq (by norm_num) ?_
    rw [div_le_iff hpos, mars_constants.DENSITY]
    nlinarith [hdl]

/-- Bounds for the demo max thrust power. -/
theorem conv4_max_thrust_power_bounds (ms : MissionScenario)
    (dc : DesignConstraints) :
    1644.9 ≤ max_thrust_power (conv4 ms dc) 20 ∧
    max_thrust_power (conv4 ms dc) 20 ≤ 1645.3 := by
  obtain ⟨hSl, hSu⟩ := conv4_induced_sqrt_bounds ms dc
  simp only [max_thrust_power, calc_max_thrust_power, calc_thrust_power]
  rw [conv4_hover_thrust_per_rotor, conv4_area_eq, conv4_efficiency,
    tip_speed_limit_eq]
  set S := Real.sqrt (18.55 / (2 * mars_constants.DENSITY *
    disk_area (rotor_radius (conv4 ms dc) 20)))
  have hipf : induced_power_factor_hover (conv4 ms dc) = 1.2 := rfl
  have hnr : ((conv4 ms dc).no_rotors : ℝ) = 4 := by norm_num [conv4]
  have hprof : mars_constants.DENSITY *
      (0.119087 * (8.39724484 * (27.825 / 91.2838248))) * 186.48 ^ 3 *
      DesignAssumptions.DRAG_COEF_MEAN / 8 =
      472553249123498469633 / 3531250000000000000 := by
    rw [mars_constants.DENSITY, DesignAssumptions.DRAG_COEF_MEAN]
    norm_num
  rw [hipf, hnr, hprof]
  constructor
  · rw [le_div_iff₀ (by norm_num : (0 : ℝ) < 0.8)]
    linarith [hSl]
  · rw [div_le_iff₀ (by norm_num : (0 : ℝ) < 0.8)]
    linarith [hSu]

/-- Bounds for the demo torque. -/
theorem conv4_torque_bounds (ms : MissionScenario) (dc : DesignConstraints) :
    14.1 ≤ torque (conv4 ms dc) 20 ∧ torque (conv4 ms dc) 20 ≤ 14.12 := by
  obtain ⟨hl, hu⟩ := conv4_max_thrust_power_bounds ms dc
  have hrl := conv4_radius_lb ms dc
  have hru := conv4_radius_ub ms dc
  simp only [torque, calc_torque, tip_speed_limit_eq]
  rw [div_div_eq_mul_div]
  constructor
  · rw [le_div_iff (by norm_num)]
    nlinarith [hl, hrl]
  · rw [div_le_iff (by norm_num)]
    nlinarith [hu, hru, hl, hrl]

/-- The demo motor mass is nonnegative and at most 1.074 kg. -/
theorem conv4_motor_mass_bounds (ms : MissionScenario) (dc : DesignConstraints) :
    0 ≤ motor_mass (conv4 ms dc) 20 ∧ motor_mass (conv4 ms dc) 20 ≤ 1.074 := by
  obtain ⟨htl, htu⟩ := conv4_torque_bounds ms dc
  have ht0 : (0 : ℝ) ≤ torque (conv4 ms dc) 20 := by linarith
  have h1t : (1 : ℝ) ≤ torque (conv4 ms dc) 20 := by linarith
  have hnn := Real.rpow_nonneg ht0 (0.86 : ℝ)
  constructor
  · rw [motor_mass, DesignAssumptions.MOTOR_MASS_FACTOR]
    nlinarith [hnn]
  · rw [motor_mass, DesignAssumptions.MOTOR_MASS_FACTOR]
    have hr : torque (conv4 ms dc) 20 ^ ((0.86 : ℝ)) ≤
        torque (conv4 ms dc) 20 ^ ((1 : ℝ)) :=
      Real.rpow_le_rpow_of_exponent_le h1t (by norm_num)
    rw [Real.rpow_one] at hr
    nlinarith [hr, hnn]

/-- The demo forward-flight thrust per rotor is nonnegative and at most
19.33 N. -/
theorem conv4_f_thrust_bounds (ms : MissionScenario) (dc : DesignConstraints) :
    0 ≤ f_flight_thrust_per_rotor (conv4 ms dc) 20 ∧
    f_flight_thrust_per_rotor (conv4 ms dc) 20 ≤ 19.33 := by
  have hk : f_flight_thrust_per_rotor (conv4 ms dc) 20 =
      hover_thrust_per_rotor (conv4 ms dc) 20 /
        Real.cos (DesignAssumptions.FORWARD_FLIGHT_TILT_ANGLE *
          Real.pi / 180) := rfl
  have hc := cos_tilt_angle_lb
  have hcpos : (0 : ℝ) < Real.cos (DesignAssumptions.FORWARD_FLIGHT_TILT_ANGLE *
      Real.pi / 180) := by linarith
  rw [hk, conv4_hover_thrust_per_rotor]
  constructor
  · exact div_nonneg (by norm_num) (le_of_lt hcpos)
  · rw [div_le_iff hcpos]
    nlinarith [hc]

/-- The demo forward-flight tip speed is nonnegative and at most
160 m/s. -/
theorem conv4_f_tip_speed_bounds (ms : MissionScenario) (dc : DesignConstraints) :
    0 ≤ f_flight_tip_speed (conv4 ms dc) 20 ∧
    f_flight_tip_speed (conv4 ms dc) 20 ≤ 160 := by
  obtain ⟨hfl, hfu⟩ := conv4_f_thrust_bounds ms dc
  constructor
  · exact Real.sqrt_nonneg _
  · rw [f_flight_tip_speed, calc_tip_speed, conv4_area_eq]
    refine sqrt_le_of_le_sq (by norm_num) ?_
    rw [div_le_iff (by norm_num [mars_constants.DENSITY,
      DesignAssumptions.BLADE_LOADING])]
    rw [mars_constants.DENSITY, DesignAssumptions.BLADE_LOADING]
    nlinarith [hfu]

/-- The demo max forward velocity is between 61 and 221.445 m/s. -/
theorem conv4_max_forward_velocity_bounds (ms : MissionScenario)
    (dc : DesignConstraints) :
    61 ≤ max_forward_velocity (conv4 ms dc) 20 ∧
    max_forward_velocity (conv4 ms dc) 20 ≤ 221.445 := by
  obtain ⟨hfl, hfu⟩ := conv4_f_tip_speed_bounds ms dc
  rw [max_forward_velocity, advancing_tip_speed_limit_eq]
  constructor <;> linarith

/-- With no hover time, no climb height and no cruise distance, a
single flight consumes no energy, whatever the powers are. -/
theorem demo_flight_energy_zero (hp fp : ℝ) :
    get_single_flight_energy demo_scenario hp fp
      DesignAssumptions.AVIONICS_POWER 1.5 1.5 = 0 := by
  norm_num [get_single_flight_energy, demo_scenario]

/-- The cube root of 20 lies between 0 and 3. -/
theorem rpow_third_20_bounds :
    0 ≤ (20 : ℝ) ^ ((1 : ℝ) / 3) ∧ (20 : ℝ) ^ ((1 : ℝ) / 3) ≤ 3 := by
  constructor
  · exact Real.rpow_nonneg (by norm_num) _
  · have h27 : ((27 : ℝ)) ^ ((1 : ℝ) / 3) = 3 := by
      have h3 : ((27 : ℝ)) = 3 ^ (3 : ℕ) := by norm_num
      rw [h3, ← Real.rpow_natCast 3 3,
        ← Real.rpow_mul (by norm_num : (0 : ℝ) ≤ 3)]
      have he : ((3 : ℕ) : ℝ) * ((1 : ℝ) / 3) = 1 := by norm_num
      rw [he, Real.rpow_one]
    calc (20 : ℝ) ^ ((1 : ℝ) / 3) ≤ (27 : ℝ) ^ ((1 : ℝ) / 3) :=
          Real.rpow_le_rpow (by norm_num) (by norm_num) (by norm_num)
      _ = 3 := h27

/-- Bounds for the demo energy per sol. -/
theorem demo_energy_bounds :
    0 ≤ calc_energy_per_sol demo_craft 20 ∧
    calc_energy_per_sol demo_craft 20 ≤ 217749 := by
  obtain ⟨hx0, hx3⟩ := rpow_third_20_bounds
  have hms : demo_craft.mission_scenario = demo_scenario := rfl
  simp only [calc_energy_per_sol, hms, demo_flight_energy_zero]
  rw [DesignAssumptions.BATTERY_CONTINGENCY,
    DesignAssumptions.GROUND_MOBILITY_POWER,
    DesignAssumptions.GROUND_MOBILITY_TIME,
    DesignAssumptions.SAMPLING_MECHANISM_POWER,
    DesignAssumptions.SAMPLING_TIME, mars_constants.SOL_SECONDS]
  constructor <;> nlinarith [hx0, hx3]

/-- Bounds for the demo battery mass. -/
theorem demo_battery_bounds :
    0 ≤ stored_battery_mass demo_craft 20 ∧
    stored_battery_mass demo_craft 20 ≤ 0.396 := by
  obtain ⟨hE0, hEu⟩ := demo_energy_bounds
  rw [stored_battery_mass, battery_mass_from_energy,
    DesignAssumptions.USABLE_BATTERY_PERC, DesignAssumptions.BATTERY_DENSITY,
    div_div, div_div]
  constructor
  · exact div_nonneg hE0 (by norm_num)
  · rw [div_le_iff₀ (by norm_num)]
    linarith

/-- Bounds for the demo solar panel mass. -/
theorem demo_solar_bounds :
    0 ≤ solar_panel_mass demo_craft 20 ∧
    solar_panel_mass demo_craft 20 ≤ 0.321 := by
  obtain ⟨hE0, hEu⟩ := demo_energy_bounds
  rw [solar_panel_mass, DesignAssumptions.USABLE_BATTERY_PERC,
    DesignAssumptions.SOLAR_PANEL_ENERGY_PER_SOL,
    DesignAssumptions.SOLAR_PANEL_MASS_DENSITY, div_div]
  constructor
  · exact mul_nonneg (div_nonneg hE0 (by norm_num)) (by norm_num)
  · rw [div_mul_eq_mul_div, div_le_iff₀ (by norm_num)]
    linarith

/-- The demo payload is at least 3 kg. -/
theorem demo_payload_lb : 3 ≤ design_payload demo_craft 20 := by
  have hmotor : 0 ≤ motor_mass demo_craft 20 ∧
      motor_mass demo_craft 20 ≤ 1.074 :=
    conv4_motor_mass_bounds demo_scenario demo_constraints
  obtain ⟨hb0, hbu⟩ := demo_battery_bounds
  obtain ⟨hs0, hsu⟩ := demo_solar_bounds
  rw [design_payload, calc_payload, total_available_mass,
    empty_mass_eq_components, structure_mass, ground_mobility_mass,
    flight_electronics_mass, DesignAssumptions.ELECTRONICS_MASS,
    DesignAssumptions.GROUND_MOBILITY_MASS_PROPORTION,
    DesignAssumptions.ROTOR_MASS_FACTOR,
    DesignConstraints.CONTINGENCY_WEIGHT_FACTOR]
  linarith [hmotor.2]

/-- The four rotor groups of the demo craft. -/
theorem demo_grouping : valid_rotor_grouping demo_craft := by
  right; left
  norm_num [no_nonoverlapping_rotors, demo_craft, conv4]

/-- The overall diameter of the demo craft uses the four-group rule. -/
theorem demo_overall_diameter :
    overall_diameter demo_craft 20 =
      (1 + Real.sqrt 2) * 2 * rotor_radius demo_craft 20 := by
  have hg4 : no_nonoverlapping_rotors demo_craft = 4 := by
    norm_num [no_nonoverlapping_rotors, demo_craft, conv4]
  norm_num [overall_diameter, total_diameter, hg4]

/-- The demo craft fits well inside its 100 m aeroshell. -/
theorem demo_diameter_ub : overall_diameter demo_craft 20 ≤ 100 := by
  rw [demo_overall_diameter]
  have hs : Real.sqrt 2 ≤ 1.5 := sqrt_le_of_le_sq (by norm_num) (by norm_num)
  have hr : rotor_radius demo_craft 20 ≤ 1.6002 :=
    conv4_radius_ub demo_scenario demo_constraints
  have hr0 : 1.5995 ≤ rotor_radius demo_craft 20 :=
    conv4_radius_lb demo_scenario demo_constraints
  nlinarith [Real.sqrt_nonneg 2]

/-- The demo evaluation succeeds and returns its design payload. -/
theorem demo_eval_ok :
    calc_and_verify_initial_design demo_craft (some 20) =
      Except.ok (design_payload demo_craft 20) := by
  rw [eval_eq_of_valid demo_craft 20 demo_grouping (by norm_num)]
  have h1 : ¬ overall_diameter demo_craft 20 >
      demo_craft.design_constraints.MAX_DIAMETER := by
    have hmd : demo_craft.design_constraints.MAX_DIAMETER = 100 := rfl
    rw [hmd, not_lt]
    exact demo_diameter_ub
  have h2 : ¬ max_forward_velocity demo_craft 20 <
      demo_craft.mission_scenario.FORWARD_FLIGHT_SPEED := by
    have hsp : demo_craft.mission_scenario.FORWARD_FLIGHT_SPEED = 10 := rfl
    have hv : 61 ≤ max_forward_velocity demo_craft 20 :=
      (conv4_max_forward_velocity_bounds demo_scenario demo_constraints).1
    rw [hsp, not_lt]
    linarith
  have h3 : ¬ design_payload demo_craft 20 < 0 := by
    rw [not_lt]
    linarith [demo_payload_lb]
  rw [if_neg h1, if_neg h2, if_neg h3]

/-- C2 witness: the payload invariant at the demo evaluation. -/
theorem c2_payload_invariant_witness :
    (0 : ℝ) < 20 ∧
    calc_and_verify_initial_design demo_craft (some 20) =
      Except.ok (design_payload demo_craft 20) ∧
    design_payload demo_craft 20 =
      20 * (1 - DesignConstraints.CONTINGENCY_WEIGHT_FACTOR) -
        (motor_mass demo_craft 20 + stored_battery_mass demo_craft 20 +
         solar_panel_mass demo_craft 20 + rotor_mass demo_craft 20 +
         structure_mass demo_craft 20 + ground_mobility_mass demo_craft 20 +
         flight_electronics_mass) :=
  ⟨by norm_num, demo_eval_ok,
    c2_payload_invariant demo_craft 20 (design_payload demo_craft 20)
      (by norm_num) demo_eval_ok⟩

/-- C6 witness: the energy decomposition at the demo evaluation. -/
theorem c6_energy_per_sol_witness :
    (0 : ℝ) < 20 ∧
    calc_and_verify_initial_design demo_craft (some 20) =
      Except.ok (design_payload demo_craft 20) ∧
    calc_energy_per_sol demo_craft 20 =
      DesignAssumptions.BATTERY_CONTINGENCY *
        (get_single_flight_energy demo_craft.mission_scenario
          (hover_power demo_craft 20) (f_flight_power demo_craft 20)
          DesignAssumptions.AVIONICS_POWER 1.5 1.5 +
         DesignAssumptions.GROUND_MOBILITY_POWER *
           DesignAssumptions.GROUND_MOBILITY_TIME +
         DesignAssumptions.SAMPLING_MECHANISM_POWER *
           DesignAssumptions.SAMPLING_TIME +
         0.518 * (20 : ℝ) ^ ((1 : ℝ) / 3) * mars_constants.SOL_SECONDS) :=
  ⟨by norm_num, demo_eval_ok,
    c6_energy_per_sol demo_craft 20 (design_payload demo_craft 20)
      (by norm_num) demo_eval_ok⟩

/-- C8 counterexample: on a craft whose aeroshell is 0.01 m and whose
mission demands an unreachable cruise speed, the max forward velocity
is below the required cruise speed, yet the evaluation fails with the
geometric fault, not the kinematic one — the original biconditional is
false because the geometric check runs first. -/
theorem c8_kinematic_counterexample :
    calc_and_verify_initial_design c8_craft (some 20) =
      Except.error (Fault.feas FeasKind.geometric) ∧
    max_forward_velocity c8_craft 20 <
      c8_craft.mission_scenario.FORWARD_FLIGHT_SPEED ∧
    calc_and_verify_initial_design c8_craft (some 20) ≠
      Except.error (Fault.feas FeasKind.kinematic) := by
  have hg : valid_rotor_grouping c8_craft := by
    right; left
    norm_num [no_nonoverlapping_rotors, c8_craft, conv4]
  have hgd : overall_diameter c8_craft 20 =
      (1 + Real.sqrt 2) * 2 * rotor_radius c8_craft 20 := by
    have hg4 : no_nonoverlapping_rotors c8_craft = 4 := by
      norm_num [no_nonoverlapping_rotors, c8_craft, conv4]
    norm_num [overall_diameter, total_diameter, hg4]
  have h1 : overall_diameter c8_craft 20 >
      c8_craft.design_constraints.MAX_DIAMETER := by
    have hmd : c8_craft.design_constraints.MAX_DIAMETER = 0.01 := rfl
    have hs : (1.4 : ℝ) ≤ Real.sqrt 2 := le_sqrt_of_sq_le_ (by norm_num)
    have hr : 1.5995 ≤ rotor_radius c8_craft 20 :=
      conv4_radius_lb c8_scenario c8_constraints
    rw [hmd, hgd]
    nlinarith
  have heval : calc_and_verify_initial_design c8_craft (some 20) =
      Except.error (Fault.feas FeasKind.geometric) := by
    rw [eval_eq_of_valid c8_craft 20 hg (by norm_num), if_pos h1]
  refine ⟨heval, ?_, ?_⟩
  · have hsp : c8_craft.mission_scenario.FORWARD_FLIGHT_SPEED =
        1000000000 := rfl
    have hv : max_forward_velocity c8_craft 20 ≤ 221.445 :=
      (conv4_max_forward_velocity_bounds c8_scenario c8_constraints).2
    rw [hsp]
    linarith
  · rw [heval]
    simp

/-- C9 amended: on a positive design mass whose evaluation returns a
max payload at least the requested minimum, the trade returns the
levels from the truncation of the minimum up to the truncation of the
max payload, with the max-payload point appended, and hover times and
cruise ranges derived from the battery mass implied by each payload
reduction; the integer part of the series consists of exactly the
integers between the two truncations. -/
theorem c9_trade_levels (c : Rotorcraft) (dm minp maxp : ℝ) (hm : 0 < dm)
    (h : calc_and_verify_initial_design c (some dm) = Except.ok maxp)
    (hmin : minp ≤ maxp) :
    trade_payload_for_battery c dm minp =
      Except.ok
        (((pyRange (pyInt minp) (pyInt maxp + 1)).map (fun (z : ℤ) => (z : ℝ))) ++
          [maxp],
         ((((pyRange (pyInt minp) (pyInt maxp + 1)).map (fun (z : ℤ) => (z : ℝ))) ++
          [maxp]).map
           (fun reduced => hover_time_from_energy c dm
             (calc_energy_from_battery_mass
               (maxp - reduced + stored_battery_mass c dm))),
         (((pyRange (pyInt minp) (pyInt maxp + 1)).map (fun (z : ℤ) => (z : ℝ))) ++
          [maxp]).map
           (fun reduced => f_flight_distance_from_energy c dm
             (calc_energy_from_battery_mass
               (maxp - reduced + stored_battery_mass c dm))))) ∧
    (∀ z : ℤ, z ∈ pyRange (pyInt minp) (pyInt maxp + 1) ↔
      pyInt minp ≤ z ∧ z ≤ pyInt maxp) := by
  have hres : resolve_design_mass c (some dm) = dm := by
    simp [resolve_design_mass, ne_of_gt hm]
  constructor
  · simp only [trade_payload_for_battery, h, hres, List.map_map,
      Function.comp_def]
  · intro z
    rw [pyRange_mem_iff]
    omega

/-- C9 amended witness: the trade characterization at the demo
evaluation with minimum payload 0. -/
theorem c9_trade_levels_witness :
    (0 : ℝ) < 20 ∧
    calc_and_verify_initial_design demo_craft (some 20) =
      Except.ok (design_payload demo_craft 20) ∧
    (0 : ℝ) ≤ design_payload demo_craft 20 ∧
    trade_payload_for_battery demo_craft 20 0 =
      Except.ok
        (((pyRange (pyInt 0) (pyInt (design_payload demo_craft 20) + 1)).map
            (fun (z : ℤ) => (z : ℝ))) ++ [design_payload demo_craft 20],
         ((((pyRange (pyInt 0) (pyInt (design_payload demo_craft 20) + 1)).map
            (fun (z : ℤ) => (z : ℝ))) ++ [design_payload demo_craft 20]).map
           (fun reduced => hover_time_from_energy demo_craft 20
             (calc_energy_from_battery_mass
               (design_payload demo_craft 20 - reduced +
                 stored_battery_mass demo_craft 20))),
         (((pyRange (pyInt 0) (pyInt (design_payload demo_craft 20) + 1)).map
            (fun (z : ℤ) => (z : ℝ))) ++ [design_payload demo_craft 20]).map
           (fun reduced => f_flight_distance_from_energy demo_craft 20
             (calc_energy_from_battery_mass
               (design_payload demo_craft 20 - reduced +
                 stored_battery_mass demo_craft 20))))) := by
  have h0 : (0 : ℝ) ≤ design_payload demo_craft 20 := by
    linarith [demo_payload_lb]
  exact ⟨by norm_num, demo_eval_ok, h0,
    (c9_trade_levels demo_craft 20 0 (design_payload demo_craft 20)
      (by norm_num) demo_eval_ok h0).1⟩

/-- C9 counterexample: with minimum payload 1/2 at the demo design
mass, the returned level series contains 0, which is neither an
integer between 1/2 and the max payload nor the appended max-payload
point (the max payload is at least 3) — so the series does not consist
only of integers between the minimum and the max. -/
theorem c9_integer_levels_counterexample :
    (0 : ℝ) ∈ c9_levels ∧ (0 : ℝ) < 1 / 2 ∧ 3 ≤ demo_max_payload := by
  have hp3 := demo_payload_lb
  have hfloor : pyInt ((1 : ℝ) / 2) = 0 := by
    rw [pyInt, if_pos (by norm_num)]
    rw [Int.floor_eq_zero_iff]
    constructor <;> norm_num
  have hfloorP : 3 ≤ pyInt (design_payload demo_craft 20) := by
    rw [pyInt, if_pos (by linarith)]
    refine Int.le_floor.mpr ?_
    push_cast
    linarith
  have hlev : c9_levels =
      ((pyRange 0 (pyInt (design_payload demo_craft 20) + 1)).map
        (fun (z : ℤ) => (z : ℝ))) ++ [design_payload demo_craft 20] := by
    simp only [c9_levels, trade_payload_for_battery, demo_eval_ok, hfloor]
  refine ⟨?_, by norm_num, hp3⟩
  rw [hlev]
  apply List.mem_append_left
  apply List.mem_map.mpr
  refine ⟨0, ?_, by norm_num⟩
  rw [pyRange_mem_iff]
  omega

/-- C10 amended: for a configuration whose group count is not 1, 4, 6
or 8 (for example a conventional craft with 2 rotors), `total_diameter`
returns no number, every evaluation fails with the generic type fault
rather than a feasibility error, and any non-empty sweep aborts with
that fault. -/
theorem c10_undefined_diameter_aborts (c : Rotorcraft)
    (hg : ¬ valid_rotor_grouping c) :
    (∀ r : ℝ, total_diameter c r = none) ∧
    (∀ dm : Option ℝ,
      calc_and_verify_initial_design c dm = Except.error Fault.typeFault) ∧
    (∀ masses : List ℝ, masses ≠ [] →
      payload_efficiency_analysis c masses = Except.error Fault.typeFault) := by
  rw [valid_rotor_grouping] at hg
  push_neg at hg
  obtain ⟨h1, h4, h6, h8⟩ := hg
  have hd : ∀ r : ℝ, total_diameter c r = none := by
    intro r
    simp [total_diameter, h1, h4, h6, h8]
  have he : ∀ dm : Option ℝ,
      calc_and_verify_initial_design c dm = Except.error Fault.typeFault := by
    intro dm
    unfold calc_and_verify_initial_design
    simp only [hd]
  refine ⟨hd, he, ?_⟩
  intro masses hne
  cases masses with
  | nil => exact absurd rfl hne
  | cons m rest =>
      unfold payload_efficiency_analysis sweep_collect
      simp only [he (some m)]

/-- C10 witness: the conventional two-rotor craft has group count 2, so
its sweep on the grid [20] aborts with the type fault. -/
theorem c10_undefined_diameter_aborts_witness :
    ¬ valid_rotor_grouping twin_rotor_craft ∧
    payload_efficiency_analysis twin_rotor_craft [20] =
      Except.error Fault.typeFault := by
  have hg : ¬ valid_rotor_grouping twin_rotor_craft := by
    norm_num [valid_rotor_grouping, no_nonoverlapping_rotors, twin_rotor_craft]
  exact ⟨hg, (c10_undefined_diameter_aborts twin_rotor_craft hg).2.2 [20]
    (by simp)⟩

/-- C10 counterexample: the claim offers a coaxial craft with 12 rotors
as an example of a configuration with no diameter branch, but its group
count is 12/2 = 6, which is one of the handled counts, and its
`total_diameter` is defined. -/
theorem c10_coax12_counterexample :
    no_nonoverlapping_rotors coax12_craft = 6 ∧
    valid_rotor_grouping coax12_craft ∧
    total_diameter coax12_craft 1 = some 6 := by
  refine ⟨?_, ?_, ?_⟩
  · norm_num [no_nonoverlapping_rotors, coax12_craft]
  · right; right; left
    norm_num [no_nonoverlapping_rotors, coax12_craft]
  · norm_num [total_diameter, no_nonoverlapping_rotors, coax12_craft]

end Theorems
